import Mathlib

set_option autoImplicit false

/-!
Shallow embedding of the account / entitlement core of the `login_form`
repository (`src/db/users_db.py`, `src/db/subscriptions_db.py`,
`src/auth/service.py`).

MongoDB collections are modelled as Lean lists of structures; `find_one`
becomes `List.find?` (first match), `delete_many` becomes `List.filter`
with the negated predicate, and `update_one(..., upsert=True)` becomes
`update_or_insert` below (update the first matching row, or append a fresh
row when none matches — the collections carry unique indexes on the
queried keys, so at most one row matches).

Sources of nondeterminism in the Python code are threaded as explicit
parameters: the UTC clock (`now : Int`, seconds; `today : String`, a UTC
calendar date), randomly generated token strings, and the SHA-256 digest
function (`sha256hex : String → String`), which the code only ever applies
and compares for equality.
-/

namespace LoginForm

/-- A document of the `users` collection (`users_db.create_user`). -/
structure User where
  id : String
  full_name : String
  email : String
  phone : String
  password_salt : String
  password_hash : String
  verified : Bool
deriving Repr, DecidableEq

/-- A document of the `verify_tokens` / `password_resets` collections. -/
structure TokenRec where
  email : String
  token : String
  expires_at : Int
deriving Repr, DecidableEq

/-- The users database (`users_db.db`): three collections. -/
structure UsersState where
  users : List User
  verify_tokens : List TokenRec
  password_resets : List TokenRec
deriving Repr, DecidableEq

/-- A document of the `plans` collection. -/
structure Plan where
  plan_id : String
  name : String
  price : Int
  usage_limit : Int
  features : List String
deriving Repr, DecidableEq

/-- A document of the `subscriptions` collection. -/
structure SubRec where
  user_id : String
  plan_id : String
deriving Repr, DecidableEq

/-- One entry of a usage document's `recent_activities` list. -/
structure Activity where
  feature : String
  timestamp : String
deriving Repr, DecidableEq

/-- A document of the `usage` collection, keyed by (user_id, date). -/
structure UsageRec where
  user_id : String
  date : String
  current_usage : Int
  recent_activities : List Activity
deriving Repr, DecidableEq

/-- The subscriptions database (`subscriptions_db.db`): three collections. -/
structure SubsState where
  plans : List Plan
  subscriptions : List SubRec
  usage : List UsageRec
deriving Repr, DecidableEq

/-- `collection.update_one(filter, update, upsert=True)`: rewrite the first
document matching `p` with `f`, or append `init` when none matches. -/
def update_or_insert {α : Type} (p : α → Bool) (f : α → α) (init : α) :
    List α → List α
  | [] => [init]
  | r :: rs => if p r then f r :: rs else r :: update_or_insert p f init rs

/-! ## users_db.py -/

/-- `_salted_hash` with the salt supplied (the branch used by
`verify_password`): digest of `salt + pw`. -/
def salted_hash (sha256hex : String → String) (pw salt : String) :
    String × String :=
  (salt, sha256hex (salt ++ pw))

/-- `verify_password`: recompute the digest with the stored salt and
compare with the stored digest. -/
def verify_password (sha256hex : String → String) (pw salt digest : String) :
    Bool :=
  (salted_hash sha256hex pw salt).2 == digest

/-- `get_user_by_identifier`: `find_one({"$or": [{"email": identifier},
{"phone": identifier}]})` — first user whose email or phone equals the
identifier. -/
def get_user_by_identifier (s : UsersState) (identifier : String) :
    Option User :=
  s.users.find? (fun u => u.email == identifier || u.phone == identifier)

/-- `bson.ObjectId(uid)` accepts exactly a 24-character hex string;
anything else raises `InvalidId`. -/
def isValidObjectId (s : String) : Bool :=
  s.length == 24 && s.data.all (fun c =>
    c.isDigit || (decide (Char.ofNat 97 ≤ c) && decide (c ≤ Char.ofNat 102))
              || (decide (Char.ofNat 65 ≤ c) && decide (c ≤ Char.ofNat 70)))

/-- The body of `get_user_by_id` without the `try/except`:
`ObjectId(uid)` may raise, modelled as `Except.error`. -/
def get_user_by_idE (s : UsersState) (uid : String) :
    Except String (Option User) :=
  if isValidObjectId uid then
    Except.ok (s.users.find? (fun u => u.id == uid))
  else
    Except.error "InvalidId"

/-- `get_user_by_id`: the `try/except Exception: return None` wrapper. -/
def get_user_by_id (s : UsersState) (uid : String) : Option User :=
  match get_user_by_idE s uid with
  | Except.ok r => r
  | Except.error _ => none

/-- `create_verify_token`: delete every verify token for the email, insert
a fresh one expiring `ttl_min` minutes from now. The random
`secrets.token_urlsafe(16)` string is the parameter `token`. -/
def create_verify_token (now ttl_min : Int) (s : UsersState)
    (email token : String) : TokenRec × UsersState :=
  let expires := now + ttl_min * 60
  (⟨email, token, expires⟩,
   { s with verify_tokens :=
       s.verify_tokens.filter (fun r => !(r.email == email))
         ++ [⟨email, token, expires⟩] })

/-- `consume_verify_token`. Faithful to the source: after the record is
found, the code sets `expires_at = datetime.now(utc) + timedelta(minutes=15)`
— from the clock, not from the stored record — and compares that with
`datetime.now(utc)`; both clock reads are the single parameter `now`. -/
def consume_verify_token (now : Int) (s : UsersState) (email token : String) :
    Bool × UsersState :=
  match s.verify_tokens.find? (fun r => r.email == email && r.token == token) with
  | none => (false, s)
  | some _found =>
    let expires_at : Int := now + 15 * 60
    let now_utc : Int := now
    if expires_at < now_utc then
      (false, { s with verify_tokens :=
                  s.verify_tokens.filter (fun r => !(r.email == email)) })
    else
      (true, { s with verify_tokens :=
                 s.verify_tokens.filter (fun r => !(r.email == email)) })

/-- `create_reset_token`: same shape as `create_verify_token`, on the
`password_resets` collection. -/
def create_reset_token (now ttl_min : Int) (s : UsersState)
    (email token : String) : TokenRec × UsersState :=
  let expires := now + ttl_min * 60
  (⟨email, token, expires⟩,
   { s with password_resets :=
       s.password_resets.filter (fun r => !(r.email == email))
         ++ [⟨email, token, expires⟩] })

/-- `consume_reset_token`: looks the row up, compares the STORED
`expires_at` with now, deletes all rows for the email either way once
found. -/
def consume_reset_token (now : Int) (s : UsersState) (email token : String) :
    Bool × UsersState :=
  match s.password_resets.find? (fun r => r.email == email && r.token == token) with
  | none => (false, s)
  | some found =>
    if found.expires_at < now then
      (false, { s with password_resets :=
                  s.password_resets.filter (fun r => !(r.email == email)) })
    else
      (true, { s with password_resets :=
                 s.password_resets.filter (fun r => !(r.email == email)) })

/-! ## subscriptions_db.py -/

/-- `get_plan`: `plans.find_one({"plan_id": pid})`. -/
def get_plan (s : SubsState) (pid : String) : Option Plan :=
  s.plans.find? (fun p => p.plan_id == pid)

/-- The view dictionary `get_subscription` returns. -/
structure SubView where
  plan_id : String
  plan_name : String
  price : Int
  usage_limit : Int
  features : List String
deriving Repr, DecidableEq

def subView (p : Plan) : SubView :=
  ⟨p.plan_id, p.name, p.price, p.usage_limit, p.features⟩

/-- The literal fallback dict in `get_subscription`, used when even the
`free` plan is not seeded. -/
def defaultFreePlan : Plan :=
  ⟨"free", "Free", 0, 3, ["login", "image_basic"]⟩

/-- `sub.get("plan_id", "free")` for the account's subscription row. -/
def stored_plan_id (s : SubsState) (user_id : String) : String :=
  match s.subscriptions.find? (fun r => r.user_id == user_id) with
  | some sub => sub.plan_id
  | none => "free"

/-- `get_subscription`: resolve the stored plan; when it does not resolve,
fall back to the `free` plan and heal the subscription row to `free`
(upsert). Returns the view and the (possibly healed) database. -/
def get_subscription (s : SubsState) (user_id : String) :
    SubView × SubsState :=
  match get_plan s (stored_plan_id s user_id) with
  | some plan => (subView plan, s)
  | none =>
    let plan := (get_plan s "free").getD defaultFreePlan
    let subs' := update_or_insert (fun r => r.user_id == user_id)
      (fun r => { r with user_id := user_id, plan_id := "free" })
      ⟨user_id, "free"⟩ s.subscriptions
    (subView plan, { s with subscriptions := subs' })

/-- `set_subscription`: `raise ValueError("Invalid plan_id")` when the plan
is unknown (modelled as `Except.error`), otherwise upsert the subscription
row and return `get_subscription`. -/
def set_subscription (s : SubsState) (user_id plan_id : String) :
    Except String (SubView × SubsState) :=
  match get_plan s plan_id with
  | none => Except.error "Invalid plan_id"
  | some _ =>
    let subs' := update_or_insert (fun r => r.user_id == user_id)
      (fun r => { r with user_id := user_id, plan_id := plan_id })
      ⟨user_id, plan_id⟩ s.subscriptions
    Except.ok (get_subscription { s with subscriptions := subs' } user_id)

/-- `record_login`: `$inc current_usage by 1`, `$setOnInsert
recent_activities: []`, upsert — a fresh row starts at usage 1. -/
def record_login (s : SubsState) (user_id today : String) : SubsState :=
  let usage' := update_or_insert (fun r => r.user_id == user_id && r.date == today)
    (fun r => { r with current_usage := r.current_usage + 1 })
    ⟨user_id, today, 1, []⟩ s.usage
  { s with usage := usage' }

/-- `record_activity`: read today's row, prepend the new entry to its
activity list, trim to 100, then `$set` the list and `$inc` the counter
with upsert. -/
def record_activity (s : SubsState) (user_id feature today now : String) :
    SubsState :=
  let doc := s.usage.find? (fun r => r.user_id == user_id && r.date == today)
  let acts0 := (doc.map (fun r => r.recent_activities)).getD []
  let acts := (Activity.mk feature now :: acts0).take 100
  let usage' := update_or_insert (fun r => r.user_id == user_id && r.date == today)
    (fun r => { r with recent_activities := acts,
                       current_usage := r.current_usage + 1 })
    ⟨user_id, today, 1, acts⟩ s.usage
  { s with usage := usage' }

/-- The view dictionary `get_usage` returns. -/
structure UsageView where
  current_usage : Int
  period : String
  recent_activities : List Activity
deriving Repr, DecidableEq

/-- `get_usage`: today's row, or a zeroed view when none exists. -/
def get_usage (s : SubsState) (user_id today : String) : UsageView :=
  match s.usage.find? (fun r => r.user_id == user_id && r.date == today) with
  | none => ⟨0, "Today", []⟩
  | some doc => ⟨doc.current_usage, "Today", doc.recent_activities⟩

/-! ## auth/service.py -/

/-- The result dictionaries `login_user` returns, one constructor per
`status` value. -/
inductive LoginResult where
  | error (message : String)
  | verificationRequired (message email : String)
  | success (message : String) (id name email phone : String)
deriving Repr, DecidableEq

/-- `login_user`: resolve the account, check the password, require the
verified flag, then gate on today's usage against the plan limit; record
the login only on success. -/
def login_user (sha256hex : String → String) (us : UsersState)
    (ss : SubsState) (today identifier password : String) :
    LoginResult × SubsState :=
  match get_user_by_identifier us identifier with
  | none => (LoginResult.error "User not found.", ss)
  | some u =>
    if !(verify_password sha256hex password u.password_salt u.password_hash) then
      (LoginResult.error "Invalid credentials.", ss)
    else if !u.verified then
      (LoginResult.verificationRequired
        "Verification required. Check email for OTP." u.email, ss)
    else
      let subss := get_subscription ss u.id
      let usage := get_usage subss.2 u.id today
      if usage.current_usage ≥ subss.1.usage_limit then
        (LoginResult.error "Daily login limit reached.", subss.2)
      else
        (LoginResult.success "Login successful." u.id u.full_name u.email u.phone,
         record_login subss.2 u.id today)

/-- The result dictionaries `forgot_password` returns. -/
inductive ForgotResult where
  | error (message : String)
  | success (message : String)
deriving Repr, DecidableEq

/-- `get_user_by_identifier(email) or get_user_by_identifier(phone)`. -/
def resolve_for_forgot (us : UsersState) (email phone : String) :
    Option User :=
  match get_user_by_identifier us email with
  | some u => some u
  | none => get_user_by_identifier us phone

/-- `forgot_password`: resolve by email or phone, require both fields to
match the resolved account exactly, then issue a reset token (the random
token string is the parameter `freshToken`). -/
def forgot_password (now : Int) (us : UsersState)
    (email phone freshToken : String) : ForgotResult × UsersState :=
  match resolve_for_forgot us email phone with
  | none => (ForgotResult.error "Account not found.", us)
  | some u =>
    if email != u.email || phone != u.phone then
      (ForgotResult.error "Email/phone mismatch.", us)
    else
      (ForgotResult.success "Reset token sent.",
       (create_reset_token now 15 us email freshToken).2)

/-- `upgrade_plan`: delegates to `set_subscription`; the `ValueError` it
raises for an unknown plan propagates uncaught (no handler in
`service.py` or `api/app.py`). -/
def upgrade_plan (ss : SubsState) (user_id new_plan_id : String) :
    Except String ((String × SubView) × SubsState) :=
  match set_subscription ss user_id new_plan_id with
  | Except.error e => Except.error e
  | Except.ok (sub, ss') => Except.ok (("Plan upgraded.", sub), ss')

/-- `record_activity` applied once per timestamp in `ts`, in order. -/
def record_activity_list (uid feat today : String) :
    SubsState → List String → SubsState
  | s, [] => s
  | s, t :: ts =>
    record_activity_list uid feat today (record_activity s uid feat today t) ts

/-! ## Concrete instances used to evaluate the operations -/

/-- A verified account whose digest was produced with the identity digest
function (`sha256hex := fun x => x`), so `"saltpw" = id ("salt" ++ "pw")`. -/
def wUser : User :=
  ⟨"aaaaaaaaaaaaaaaaaaaaaaaa", "Ann", "ann@x.com", "111111", "salt", "saltpw", true⟩

/-- A second account, owner of phone `222222`. -/
def wUserB : User :=
  ⟨"bbbbbbbbbbbbbbbbbbbbbbbb", "Bob", "bob@x.com", "222222", "salt", "saltpw", true⟩

def wUsers : UsersState := ⟨[wUser], [], []⟩

def wUsersTwo : UsersState := ⟨[wUser, wUserB], [], []⟩

/-- A users database holding one verify token and one reset token for
`a@x.com`, both expiring at time 1000. -/
def wTok : UsersState :=
  ⟨[], [⟨"a@x.com", "t", 1000⟩], [⟨"a@x.com", "t", 1000⟩]⟩

/-- A verify token whose stored expiry (-60) is already in the past at
time 0. -/
def sExpired : UsersState := ⟨[], [⟨"a@x.com", "t", -60⟩], []⟩

/-- Subscriptions database: only the `free` plan is seeded, `wUser` is on
it, no usage yet. -/
def wSubs : SubsState := ⟨[defaultFreePlan], [⟨wUser.id, "free"⟩], []⟩

/-- Subscriptions database whose single subscription row references the
missing plan `ghost`. -/
def sGhost : SubsState := ⟨[defaultFreePlan], [⟨"u1", "ghost"⟩], []⟩

/-- Subscriptions database with a seeded plan catalog and nothing else. -/
def sPlansOnly : SubsState := ⟨[defaultFreePlan], [], []⟩

/-- Entirely empty subscriptions database. -/
def sUsageEmpty : SubsState := ⟨[], [], []⟩

/-! ## Helper lemmas -/

theorem find?_update_or_insert {α : Type} (p : α → Bool) (f : α → α) (init : α)
    (l : List α) (hf : ∀ a, p a = true → p (f a) = true) (hi : p init = true) :
    (update_or_insert p f init l).find? p = some (((l.find? p).map f).getD init) := by
  induction l with
  | nil => simp [update_or_insert, hi]
  | cons r rs ih =>
    by_cases hp : p r = true
    · simp [update_or_insert, hp, List.find?_cons_of_pos _ (hf r hp),
        List.find?_cons_of_pos _ hp]
    · rw [update_or_insert, if_neg hp, List.find?_cons_of_neg _ hp,
        List.find?_cons_of_neg _ hp, ih]

/-- After `delete_many({"email": email})`, no lookup keyed on that email
can succeed. -/
theorem find?_token_after_delete (l : List TokenRec) (email token : String) :
    (l.filter (fun r => !(r.email == email))).find?
      (fun r => r.email == email && r.token == token) = none := by
  rw [List.find?_eq_none]
  intro r hr
  have h := (List.mem_filter.mp hr).2
  simp only [Bool.not_eq_true'] at h
  simp [h]

/-- After issuing a fresh token for an email, no token with a different
string can be looked up for that email. -/
theorem find?_after_issue (l : List TokenRec) (email tokNew tokOld : String)
    (e : Int) (hne : tokOld ≠ tokNew) :
    ((l.filter (fun r => !(r.email == email)))
        ++ ([⟨email, tokNew, e⟩] : List TokenRec)).find?
      (fun r => r.email == email && r.token == tokOld) = none := by
  rw [List.find?_eq_none]
  intro r hr
  rcases List.mem_append.mp hr with h | h
  · have h2 := (List.mem_filter.mp h).2
    simp only [Bool.not_eq_true'] at h2
    simp [h2]
  · have hr2 : r = ⟨email, tokNew, e⟩ := by simpa using h
    subst hr2
    simp
    exact fun h3 => hne h3.symm

/-- After issuing a fresh token for an email, that email holds exactly one
token. -/
theorem filter_after_issue (l : List TokenRec) (email tokNew : String)
    (e : Int) :
    ((l.filter (fun r => !(r.email == email)))
        ++ ([⟨email, tokNew, e⟩] : List TokenRec)).filter
      (fun r => r.email == email) = [⟨email, tokNew, e⟩] := by
  rw [List.filter_append, List.filter_filter]
  have h1 : l.filter (fun a => (a.email == email) && !(a.email == email)) = [] := by
    simp
  rw [h1]
  simp

/-- When the account's stored plan resolves, `get_subscription` does not
heal: it returns the plan's view and the unchanged database. -/
theorem get_subscription_resolved (s : SubsState) (uid : String) (plan : Plan)
    (h : get_plan s (stored_plan_id s uid) = some plan) :
    get_subscription s uid = (subView plan, s) := by
  unfold get_subscription
  rw [h]

/-- A found `consume_verify_token` call deletes all verify tokens for the
email (in both the expired and the valid branch). -/
theorem consume_verify_token_state (now : Int) (s : UsersState)
    (email token : String) (tr : TokenRec)
    (h : s.verify_tokens.find? (fun r => r.email == email && r.token == token)
          = some tr) :
    (consume_verify_token now s email token).2.verify_tokens
      = s.verify_tokens.filter (fun r => !(r.email == email)) := by
  unfold consume_verify_token
  rw [h]
  split
  · simp_all
  · dsimp only
    split <;> rfl

/-- An unfound `consume_verify_token` call fails. -/
theorem consume_verify_token_not_found (now : Int) (s : UsersState)
    (email token : String)
    (h : s.verify_tokens.find? (fun r => r.email == email && r.token == token)
          = none) :
    (consume_verify_token now s email token).1 = false := by
  unfold consume_verify_token
  rw [h]

/-- A found `consume_reset_token` call deletes all reset tokens for the
email (in both the expired and the valid branch). -/
theorem consume_reset_token_state (now : Int) (s : UsersState)
    (email token : String) (tr : TokenRec)
    (h : s.password_resets.find? (fun r => r.email == email && r.token == token)
          = some tr) :
    (consume_reset_token now s email token).2.password_resets
      = s.password_resets.filter (fun r => !(r.email == email)) := by
  unfold consume_reset_token
  rw [h]
  split
  · simp_all
  · split <;> rfl

/-- An unfound `consume_reset_token` call fails. -/
theorem consume_reset_token_not_found (now : Int) (s : UsersState)
    (email token : String)
    (h : s.password_resets.find? (fun r => r.email == email && r.token == token)
          = none) :
    (consume_reset_token now s email token).1 = false := by
  unfold consume_reset_token
  rw [h]

/-- `record_login` bumps today's counter by one (creating the row at 1). -/
theorem get_usage_record_login (s : SubsState) (uid today : String) :
    (get_usage (record_login s uid today) uid today).current_usage
      = (get_usage s uid today).current_usage + 1 := by
  have key := find?_update_or_insert
    (fun r : UsageRec => r.user_id == uid && r.date == today)
    (fun r => { r with current_usage := r.current_usage + 1 })
    ⟨uid, today, 1, []⟩ s.usage (fun a ha => ha) (by simp)
  unfold get_usage record_login
  dsimp only
  rw [key]
  cases h : s.usage.find? (fun r => r.user_id == uid && r.date == today) <;>
    simp [h]

/-- One `record_activity` call: counter up by one, new entry prepended,
list trimmed to 100. -/
theorem get_usage_record_activity (s : SubsState) (uid feat today t : String) :
    get_usage (record_activity s uid feat today t) uid today
      = ⟨(get_usage s uid today).current_usage + 1, "Today",
         (Activity.mk feat t :: (get_usage s uid today).recent_activities).take 100⟩ := by
  have key := find?_update_or_insert
    (fun r : UsageRec => r.user_id == uid && r.date == today)
    (fun r => { r with
      recent_activities := (Activity.mk feat t ::
        ((s.usage.find? (fun rr => rr.user_id == uid && rr.date == today)).map
          (fun rr => rr.recent_activities)).getD []).take 100,
      current_usage := r.current_usage + 1 })
    ⟨uid, today, 1,
      (Activity.mk feat t ::
        ((s.usage.find? (fun rr => rr.user_id == uid && rr.date == today)).map
          (fun rr => rr.recent_activities)).getD []).take 100⟩
    s.usage (fun a ha => ha) (by simp)
  unfold get_usage record_activity
  dsimp only
  rw [key]
  cases h : s.usage.find? (fun r => r.user_id == uid && r.date == today) <;>
    simp [h]

theorem take_append_take {α : Type} (l₁ l₂ : List α) (n : Nat) :
    (l₁ ++ l₂.take n).take n = (l₁ ++ l₂).take n := by
  rw [List.take_append_eq_append_take, List.take_take,
    Nat.min_eq_left (Nat.sub_le _ _), List.take_append_eq_append_take]

/-- `record_activity_list` over any start state whose activity list is
already within the cap: counter grows by the number of calls, activity
list is the reversed timestamps prepended and trimmed. -/
theorem record_activity_list_spec (uid feat today : String) (ts : List String) :
    ∀ (s : SubsState),
      (get_usage s uid today).recent_activities.length ≤ 100 →
      (get_usage (record_activity_list uid feat today s ts) uid today).current_usage
          = (get_usage s uid today).current_usage + (ts.length : Int) ∧
      (get_usage (record_activity_list uid feat today s ts) uid today).recent_activities
          = (ts.reverse.map (fun t => Activity.mk feat t)
              ++ (get_usage s uid today).recent_activities).take 100 := by
  induction ts with
  | nil =>
    intro s h
    refine ⟨by simp [record_activity_list], ?_⟩
    simp only [record_activity_list, List.reverse_nil, List.map_nil,
      List.nil_append]
    exact (List.take_of_length_le h).symm
  | cons t ts ih =>
    intro s h
    have hstep := get_usage_record_activity s uid feat today t
    have hlen : (get_usage (record_activity s uid feat today t) uid today).recent_activities.length ≤ 100 := by
      rw [hstep]
      exact List.length_take_le _ _
    have htail := ih (record_activity s uid feat today t) hlen
    rw [record_activity_list]
    refine ⟨?_, ?_⟩
    · rw [htail.1, hstep]
      simp only [List.length_cons]
      push_cast
      ring
    · rw [htail.2, hstep]
      simp only []
      rw [take_append_take]
      simp [List.append_assoc]

/-- When the subscription row says `free` and the `free` plan is in the
catalog, `get_subscription` resolves without healing. -/
theorem get_subscription_on_free (s : SubsState) (uid : String) (pfree : Plan)
    (hf : s.subscriptions.find? (fun r => r.user_id == uid)
            = some ⟨uid, "free"⟩)
    (hfree : get_plan s "free" = some pfree) :
    get_subscription s uid = (subView pfree, s) := by
  apply get_subscription_resolved
  have hpid : stored_plan_id s uid = "free" := by
    unfold stored_plan_id
    rw [hf]
  rw [hpid]
  exact hfree

/-! ## Claims -/

/-- Claim C1 (code bug): the spec requires `consume` to reject a stored
token whose expiry is in the past, for both purposes. For the verification
purpose the code compares `now + 15 minutes` with `now` — never the stored
expiry — so an expired verify token is still consumed successfully:
`sExpired` stores the token with expiry -60, the current time is 0, and
`consume_verify_token` reports success. (`consume_reset_token` checks the
stored expiry correctly.) -/
theorem consume_verify_token_accepts_expired :
    sExpired.verify_tokens.map (fun r => r.expires_at) = [(-60 : Int)] ∧
    (-60 : Int) < 0 ∧
    (consume_verify_token 0 sExpired "a@x.com" "t").1 = true := by
  refine ⟨rfl, by decide, by decide⟩

/-- Claim C2: for a resolved, password-correct, verified account whose
stored plan resolves, login fails with the quota error and leaves today's
usage untouched when the counter has reached the limit, and otherwise
succeeds and increments the counter by exactly one. -/
theorem login_quota_gate (sha256hex : String → String) (us : UsersState)
    (ss : SubsState) (today identifier password : String) (u : User)
    (plan : Plan)
    (hu : get_user_by_identifier us identifier = some u)
    (hpw : verify_password sha256hex password u.password_salt u.password_hash
            = true)
    (hv : u.verified = true)
    (hplan : get_plan ss (stored_plan_id ss u.id) = some plan) :
    ((get_usage ss u.id today).current_usage ≥ plan.usage_limit →
      (login_user sha256hex us ss today identifier password).1
          = LoginResult.error "Daily login limit reached." ∧
      get_usage (login_user sha256hex us ss today identifier password).2
          u.id today
        = get_usage ss u.id today) ∧
    ((get_usage ss u.id today).current_usage < plan.usage_limit →
      (login_user sha256hex us ss today identifier password).1
          = LoginResult.success "Login successful." u.id u.full_name u.email
              u.phone ∧
      (get_usage (login_user sha256hex us ss today identifier password).2
          u.id today).current_usage
        = (get_usage ss u.id today).current_usage + 1) := by
  have hsub := get_subscription_resolved ss u.id plan hplan
  have hrun : login_user sha256hex us ss today identifier password
      = (if (get_usage ss u.id today).current_usage ≥ plan.usage_limit then
           (LoginResult.error "Daily login limit reached.", ss)
         else
           (LoginResult.success "Login successful." u.id u.full_name u.email
              u.phone,
            record_login ss u.id today)) := by
    unfold login_user
    rw [hu]
    simp [hpw, hv, hsub, subView]
  refine ⟨fun hge => ?_, fun hlt => ?_⟩
  · rw [hrun, if_pos hge]
    exact ⟨rfl, rfl⟩
  · rw [hrun, if_neg (not_le.mpr hlt)]
    exact ⟨rfl, get_usage_record_login ss u.id today⟩

/-- Witness for C2: a verified account on the free plan (limit 3) with
zero usage today logs in successfully and the counter becomes 1. The
digest function is instantiated with the identity function, matching the
stored digest `"saltpw" = id ("salt" ++ "pw")`. -/
theorem login_quota_gate_witness :
    get_user_by_identifier wUsers "ann@x.com" = some wUser ∧
    verify_password (fun x => x) "pw" wUser.password_salt wUser.password_hash
        = true ∧
    wUser.verified = true ∧
    get_plan wSubs (stored_plan_id wSubs wUser.id) = some defaultFreePlan ∧
    (get_usage wSubs wUser.id "2026-10-12").current_usage
        < defaultFreePlan.usage_limit ∧
    ((login_user (fun x => x) wUsers wSubs "2026-10-12" "ann@x.com" "pw").1
        = LoginResult.success "Login successful." wUser.id wUser.full_name
            wUser.email wUser.phone ∧
     (get_usage (login_user (fun x => x) wUsers wSubs "2026-10-12"
          "ann@x.com" "pw").2 wUser.id "2026-10-12").current_usage
        = (get_usage wSubs wUser.id "2026-10-12").current_usage + 1) :=
  ⟨by decide, by decide, by decide, by decide, by decide,
   (login_quota_gate (fun x => x) wUsers wSubs "2026-10-12" "ann@x.com" "pw"
      wUser defaultFreePlan (by decide) (by decide) (by decide)
      (by decide)).2 (by decide)⟩

/-- Claim C3 counterexample: with only the `free` plan seeded, upgrading
to the unknown plan `gold` does NOT return a tagged failure outcome — the
`ValueError "Invalid plan_id"` raised by `set_subscription` propagates out
of `upgrade_plan` (modelled as `Except.error`), refuting the claim at this
concrete input. -/
theorem upgrade_plan_unknown_raises :
    get_plan sPlansOnly "gold" = none ∧
    upgrade_plan sPlansOnly "u1" "gold" = Except.error "Invalid plan_id" :=
  ⟨rfl, rfl⟩

/-- Claim C3 amended: for every account id and unknown plan id,
`upgrade_plan` raises `ValueError("Invalid plan_id")` — an unstructured
error propagated from `set_subscription`, not a tagged outcome — and the
raising call commits no state change (the error carries no updated
database). -/
theorem upgrade_plan_unknown_plan_error (ss : SubsState) (uid pid : String)
    (h : get_plan ss pid = none) :
    upgrade_plan ss uid pid = Except.error "Invalid plan_id" := by
  unfold upgrade_plan set_subscription
  rw [h]

/-- Witness for the amended C3 at the concrete catalog `sPlansOnly`. -/
theorem upgrade_plan_unknown_plan_error_witness :
    get_plan sPlansOnly "gold" = none ∧
    upgrade_plan sPlansOnly "u1" "gold" = Except.error "Invalid plan_id" :=
  ⟨rfl, upgrade_plan_unknown_plan_error sPlansOnly "u1" "gold" rfl⟩

/-- Claim C4: for both purposes, a successful consume deletes the row, so
a second consume of the same (email, token) fails at any later time, even
within the TTL. -/
theorem token_consumed_at_most_once (now now2 : Int) (s : UsersState)
    (email token : String) :
    ((consume_verify_token now s email token).1 = true →
      (consume_verify_token now2 (consume_verify_token now s email token).2
        email token).1 = false) ∧
    ((consume_reset_token now s email token).1 = true →
      (consume_reset_token now2 (consume_reset_token now s email token).2
        email token).1 = false) := by
  constructor
  · intro hs
    cases h : s.verify_tokens.find?
        (fun r => r.email == email && r.token == token) with
    | none =>
      rw [consume_verify_token_not_found now s email token h] at hs
      exact absurd hs (by simp)
    | some tr =>
      apply consume_verify_token_not_found
      rw [consume_verify_token_state now s email token tr h]
      exact find?_token_after_delete _ email token
  · intro hs
    cases h : s.password_resets.find?
        (fun r => r.email == email && r.token == token) with
    | none =>
      rw [consume_reset_token_not_found now s email token h] at hs
      exact absurd hs (by simp)
    | some tr =>
      apply consume_reset_token_not_found
      rw [consume_reset_token_state now s email token tr h]
      exact find?_token_after_delete _ email token

/-- Witness for C4: the token `t` of `wTok` consumes successfully at time
0 and the repeated consume at time 5 (well within the TTL) fails, for both
purposes. -/
theorem token_consumed_at_most_once_witness :
    (consume_verify_token 0 wTok "a@x.com" "t").1 = true ∧
    (consume_verify_token 5 (consume_verify_token 0 wTok "a@x.com" "t").2
        "a@x.com" "t").1 = false ∧
    (consume_reset_token 0 wTok "a@x.com" "t").1 = true ∧
    (consume_reset_token 5 (consume_reset_token 0 wTok "a@x.com" "t").2
        "a@x.com" "t").1 = false :=
  ⟨by decide,
   (token_consumed_at_most_once 0 5 wTok "a@x.com" "t").1 (by decide),
   by decide,
   (token_consumed_at_most_once 0 5 wTok "a@x.com" "t").2 (by decide)⟩

/-- Claim C5: issuing a new token deletes every previously issued token
for the same (email, purpose) — consuming any earlier (distinct) token
afterwards fails, and exactly one token for that email remains — for both
purposes. -/
theorem issue_invalidates_previous_tokens (nowI now2 ttl : Int)
    (s : UsersState) (email tokNew tokOld : String) (hne : tokOld ≠ tokNew) :
    ((consume_verify_token now2 (create_verify_token nowI ttl s email tokNew).2
        email tokOld).1 = false ∧
     (((create_verify_token nowI ttl s email tokNew).2).verify_tokens.filter
        (fun r => r.email == email)).length = 1) ∧
    ((consume_reset_token now2 (create_reset_token nowI ttl s email tokNew).2
        email tokOld).1 = false ∧
     (((create_reset_token nowI ttl s email tokNew).2).password_resets.filter
        (fun r => r.email == email)).length = 1) := by
  refine ⟨⟨?_, ?_⟩, ?_, ?_⟩
  · apply consume_verify_token_not_found
    exact find?_after_issue s.verify_tokens email tokNew tokOld
      (nowI + ttl * 60) hne
  · show ((s.verify_tokens.filter (fun r => !(r.email == email))
        ++ ([⟨email, tokNew, nowI + ttl * 60⟩] : List TokenRec)).filter
        (fun r => r.email == email)).length = 1
    rw [filter_after_issue]
    rfl
  · apply consume_reset_token_not_found
    exact find?_after_issue s.password_resets email tokNew tokOld
      (nowI + ttl * 60) hne
  · show ((s.password_resets.filter (fun r => !(r.email == email))
        ++ ([⟨email, tokNew, nowI + ttl * 60⟩] : List TokenRec)).filter
        (fun r => r.email == email)).length = 1
    rw [filter_after_issue]
    rfl

/-- Witness for C5: after issuing `new` for `a@x.com` over `wTok` (which
holds the earlier token `t`), consuming `t` fails and exactly one token
remains, for both purposes. -/
theorem issue_invalidates_previous_tokens_witness :
    ("t" : String) ≠ "new" ∧
    (((consume_verify_token 10 (create_verify_token 0 15 wTok "a@x.com"
          "new").2 "a@x.com" "t").1 = false ∧
      (((create_verify_token 0 15 wTok "a@x.com" "new").2).verify_tokens.filter
        (fun r => r.email == "a@x.com")).length = 1) ∧
     ((consume_reset_token 10 (create_reset_token 0 15 wTok "a@x.com"
          "new").2 "a@x.com" "t").1 = false ∧
      (((create_reset_token 0 15 wTok "a@x.com" "new").2).password_resets.filter
        (fun r => r.email == "a@x.com")).length = 1)) :=
  ⟨by decide,
   issue_invalidates_previous_tokens 0 10 15 wTok "a@x.com" "new" "t"
     (by decide)⟩

/-- Claim C6: when forgot-password resolves an account but either supplied
field differs from the stored one, the operation reports the mismatch
error and leaves the users database — in particular the reset-token
collection — unchanged. -/
theorem forgot_password_identity_mismatch (nowF : Int) (us : UsersState)
    (email phone freshToken : String) (u : User)
    (hres : resolve_for_forgot us email phone = some u)
    (hmis : email ≠ u.email ∨ phone ≠ u.phone) :
    (forgot_password nowF us email phone freshToken).1
        = ForgotResult.error "Email/phone mismatch." ∧
    (forgot_password nowF us email phone freshToken).2 = us := by
  have hcond : (email != u.email || phone != u.phone) = true := by
    rcases hmis with h | h <;> simp [bne_iff_ne, h]
  have hrun : forgot_password nowF us email phone freshToken
      = (ForgotResult.error "Email/phone mismatch.", us) := by
    unfold forgot_password
    rw [hres]
    simp [hcond]
  rw [hrun]
  exact ⟨rfl, rfl⟩

/-- Witness for C6: the email resolves account `wUser` while the phone
belongs to `wUserB`; the call fails with the mismatch error and issues no
token. -/
theorem forgot_password_identity_mismatch_witness :
    resolve_for_forgot wUsersTwo "ann@x.com" "222222" = some wUser ∧
    ("222222" : String) ≠ wUser.phone ∧
    ((forgot_password 0 wUsersTwo "ann@x.com" "222222" "tok").1
        = ForgotResult.error "Email/phone mismatch." ∧
     (forgot_password 0 wUsersTwo "ann@x.com" "222222" "tok").2 = wUsersTwo) :=
  ⟨by decide, by decide,
   forgot_password_identity_mismatch 0 wUsersTwo "ann@x.com" "222222" "tok"
     wUser (by decide) (Or.inr (by decide))⟩

/-- Claim C7: a subscription row whose stored plan is missing from the
catalog is healed: `get_subscription` returns the free plan's view,
persists the row as `free`, and a subsequent read resolves with no
further state change. -/
theorem get_subscription_heals_missing_plan (ss : SubsState) (uid : String)
    (sub : SubRec) (pfree : Plan)
    (hsub : ss.subscriptions.find? (fun r => r.user_id == uid) = some sub)
    (hmiss : get_plan ss sub.plan_id = none)
    (hfree : get_plan ss "free" = some pfree) :
    (get_subscription ss uid).1 = subView pfree ∧
    ((get_subscription ss uid).2).subscriptions.find?
        (fun r => r.user_id == uid) = some ⟨uid, "free"⟩ ∧
    get_subscription (get_subscription ss uid).2 uid
        = (subView pfree, (get_subscription ss uid).2) := by
  have hpid : stored_plan_id ss uid = sub.plan_id := by
    unfold stored_plan_id
    rw [hsub]
  have hrun : get_subscription ss uid = (subView pfree,
      { ss with
          subscriptions :=
            update_or_insert (fun r => r.user_id == uid)
              (fun r => { r with user_id := uid, plan_id := "free" })
              ⟨uid, "free"⟩ ss.subscriptions }) := by
    unfold get_subscription
    rw [hpid, hmiss]
    simp [hfree]
  have hfind : (update_or_insert (fun r : SubRec => r.user_id == uid)
      (fun r => { r with user_id := uid, plan_id := "free" })
      ⟨uid, "free"⟩ ss.subscriptions).find? (fun r => r.user_id == uid)
      = some ⟨uid, "free"⟩ := by
    rw [find?_update_or_insert (fun r : SubRec => r.user_id == uid)
      (fun r => { r with user_id := uid, plan_id := "free" })
      ⟨uid, "free"⟩ ss.subscriptions (fun a _ => by simp) (by simp)]
    rw [hsub]
    rfl
  refine ⟨by rw [hrun], ?_, ?_⟩
  · rw [hrun]
    exact hfind
  · rw [hrun]
    apply get_subscription_on_free
    · exact hfind
    · exact hfree

/-- Witness for C7: `sGhost` stores plan `ghost`, missing from the
catalog; the read heals the row to `free`. -/
theorem get_subscription_heals_missing_plan_witness :
    sGhost.subscriptions.find? (fun r => r.user_id == "u1")
        = some ⟨"u1", "ghost"⟩ ∧
    get_plan sGhost "ghost" = none ∧
    get_plan sGhost "free" = some defaultFreePlan ∧
    ((get_subscription sGhost "u1").1 = subView defaultFreePlan ∧
     ((get_subscription sGhost "u1").2).subscriptions.find?
        (fun r => r.user_id == "u1") = some ⟨"u1", "free"⟩ ∧
     get_subscription (get_subscription sGhost "u1").2 "u1"
        = (subView defaultFreePlan, (get_subscription sGhost "u1").2)) :=
  ⟨by decide, by decide, by decide,
   get_subscription_heals_missing_plan sGhost "u1" ⟨"u1", "ghost"⟩
     defaultFreePlan (by decide) (by decide) (by decide)⟩

/-- Claim C8: starting from no usage row for today, N calls of
`record_activity` in the same day yield `current_usage = N` and a
`recent_activities` list that is exactly the most recent `min(N, 100)`
entries, newest first. -/
theorem record_activity_n_times (ss : SubsState) (uid feature today : String)
    (ts : List String)
    (hstart : ss.usage.find? (fun r => r.user_id == uid && r.date == today)
        = none)
    (hpos : ts ≠ []) :
    (get_usage (record_activity_list uid feature today ss ts) uid
        today).current_usage = (ts.length : Int) ∧
    (get_usage (record_activity_list uid feature today ss ts) uid
        today).recent_activities
      = (ts.reverse.map (fun t => Activity.mk feature t)).take 100 := by
  have h0 : get_usage ss uid today = ⟨0, "Today", []⟩ := by
    unfold get_usage
    rw [hstart]
  have hlen : (get_usage ss uid today).recent_activities.length ≤ 100 := by
    rw [h0]
    simp
  have spec := record_activity_list_spec uid feature today ts ss hlen
  rw [h0] at spec
  simpa using spec

/-- Witness for C8: two activity calls on an empty usage collection yield
usage 2 and the two entries newest first. -/
theorem record_activity_n_times_witness :
    sUsageEmpty.usage.find? (fun r => r.user_id == "u1" && r.date == "d")
        = none ∧
    (["t1", "t2"] : List String) ≠ [] ∧
    ((get_usage (record_activity_list "u1" "image" "d" sUsageEmpty
        ["t1", "t2"]) "u1" "d").current_usage
        = ((["t1", "t2"] : List String).length : Int) ∧
     (get_usage (record_activity_list "u1" "image" "d" sUsageEmpty
        ["t1", "t2"]) "u1" "d").recent_activities
        = ((["t1", "t2"] : List String).reverse.map
            (fun t => Activity.mk "image" t)).take 100) :=
  ⟨by decide, by decide,
   record_activity_n_times sUsageEmpty "u1" "image" "d" ["t1", "t2"]
     (by decide) (by decide)⟩

/-- Claim C9: `verify_password` returns true exactly when the digest of
the stored salt concatenated with the submitted plaintext equals the
stored digest. -/
theorem verify_password_iff (sha256hex : String → String)
    (pw salt digest : String) :
    verify_password sha256hex pw salt digest = true
      ↔ sha256hex (salt ++ pw) = digest := by
  simp [verify_password, salted_hash]

/-- Claim C10: `get_user_by_id` never propagates the ObjectId parse
failure — on any input where the body raises it returns none — and any
account it returns has the requested id. -/
theorem get_user_by_id_total (s : UsersState) (uid : String) :
    (∀ e, get_user_by_idE s uid = Except.error e →
        get_user_by_id s uid = none) ∧
    (∀ u, get_user_by_id s uid = some u → u.id = uid) := by
  constructor
  · intro e he
    unfold get_user_by_id
    rw [he]
  · intro u hu
    unfold get_user_by_id get_user_by_idE at hu
    by_cases hv : isValidObjectId uid = true
    · rw [if_pos hv] at hu
      have hfind : s.users.find? (fun v => v.id == uid) = some u := hu
      have hp := List.find?_some hfind
      simpa using hp
    · rw [if_neg hv] at hu
      exact absurd hu (by simp)

/-- Witness for C10: the malformed id `zz` makes the body raise, and the
wrapper returns none. -/
theorem get_user_by_id_total_witness :
    get_user_by_idE wUsers "zz" = Except.error "InvalidId" ∧
    get_user_by_id wUsers "zz" = none :=
  ⟨rfl, (get_user_by_id_total wUsers "zz").1 "InvalidId" rfl⟩

end LoginForm
